import Mathlib

/-!
Shallow embedding of src/tg_signer/config.py: the versioned configuration
loading framework (BaseJSONConfig / SignConfigV1 / SignConfigV2) and the
declarative rule-matching engine (MatchConfig / MonitorConfig).

Python values are modelled explicitly: `int | str` unions as `PyId`,
JSON records as `JVal`, absent values (None) as `Option`, and Python
exceptions as `Except PyErr`.  Pydantic validation (`model_validate`) is
modelled per model as a `valid : JVal -> Option _` function with strict
field typing; `model_dump(mode="json")` as `to_jsonable`.
-/

/-- A Python `int | str` value, as used for chat and user identifiers.
Python equality never identifies an int with a str. -/
inductive PyId where
  | num (n : Int)
  | str (s : String)
deriving DecidableEq, Repr

/-- The Python exceptions that the embedded code can raise. -/
inductive PyErr where
  | attributeError
  | typeError
  | valueError
  | reError
  | validationError
deriving DecidableEq, Repr

/-- A `datetime.time` value (pydantic `time` fields), to second precision. -/
structure PyTime where
  hour : Nat
  minute : Nat
  second : Nat
deriving DecidableEq, Repr

/-- Python `s.strip("@")`: remove leading and trailing `@` characters. -/
def stripAt (s : String) : String :=
  String.mk (((s.toList.dropWhile (fun c => c = '@')).reverse.dropWhile
      (fun c => c = '@')).reverse)

/-- Python `s.lower()`, character by character (core's String.toLower is
extensionally the same but does not reduce definitionally). -/
def pyLower (s : String) : String :=
  String.mk (s.toList.map Char.toLower)

/-- Boolean substring test on char lists (Python `n in h` for strings). -/
def listInfix : List Char → List Char → Bool
  | n, [] => n.isEmpty
  | n, h :: t => List.isPrefixOf (n) (h :: t) || listInfix n t

/-- Python `needle in hay` for strings. -/
def substrB (needle hay : String) : Bool :=
  listInfix needle.toList hay.toList

/-- Python `==` between two `Optional[str]` values: `None == None` is True,
`None == "x"` is False, and two strings compare by content. -/
def pyEqOptStr : Option String → Option String → Bool
  | none, none => true
  | some a, some b => a == b
  | _, _ => false

/-! ### A model of Python `re` on the fragment used by the configs

The fragment covers literal characters, the class `\d`, the greedy
repetition `+` and numbered capture groups.  `re.search` scans for the
leftmost match; on success the capture list records, per group number,
the last captured substring.  Patterns outside the fragment are treated
as unparseable. -/

/-- Abstract syntax of the supported regular-expression fragment. -/
inductive ReAst where
  | eps
  | ch (c : Char)
  | anyDigit
  | seq (a b : ReAst)
  | rep1 (a : ReAst)
  | grp (n : Nat) (a : ReAst)
deriving DecidableEq, Repr

/-- Structural size of a pattern, used only to budget matcher fuel. -/
def reSize : ReAst → Nat
  | .eps => 1
  | .ch _ => 1
  | .anyDigit => 1
  | .seq a b => reSize a + reSize b + 1
  | .rep1 a => reSize a + 1
  | .grp _ a => reSize a + 1

/-- Captured groups: newest capture first; lookup of a group number finds
the most recent capture (Python keeps the last capture of a group). -/
def Caps := List (Nat × String)

/-- Lookup of a group number in a capture list. -/
def capsLookup : List (Nat × String) → Nat → Option String
  | [], _ => none
  | (k, v) :: rest, n => if k = n then some v else capsLookup rest n

/-- Single-character match, honouring the case-insensitive flag. -/
def charMatch (ci : Bool) (pat actual : Char) : Bool :=
  if ci then pat.toLower == actual.toLower else pat == actual

/-- Backtracking matcher in continuation style.  Alternatives are tried
greedily (for `rep1`: longer matches first), and the first success wins.
`fuel` bounds the recursion; every caller supplies enough fuel. -/
def mrun (ci : Bool) (fuel : Nat) (r : ReAst) (s : List Char)
    (caps : List (Nat × String))
    (k : List Char → List (Nat × String) → Option (List (Nat × String) × List Char)) :
    Option (List (Nat × String) × List Char) :=
  match fuel with
  | 0 => none
  | Nat.succ f =>
    match r with
    | .eps => k s caps
    | .ch c =>
      match s with
      | [] => none
      | c' :: rest => if charMatch ci c c' then k rest caps else none
    | .anyDigit =>
      match s with
      | [] => none
      | c' :: rest => if c'.isDigit then k rest caps else none
    | .seq a b =>
      mrun ci f a s caps (fun s' caps' => mrun ci f b s' caps' k)
    | .rep1 a =>
      mrun ci f a s caps (fun s' caps' =>
        match mrun ci f (.rep1 a) s' caps' k with
        | some res => some res
        | none => k s' caps')
    | .grp n a =>
      mrun ci f a s caps (fun s' caps' =>
        k s' ((n, String.mk (s.take (s.length - s'.length))) :: caps'))

/-- Fuel budget sufficient for any match attempt of `r` against `s`. -/
def reFuel (r : ReAst) (s : List Char) : Nat :=
  (reSize r + 1) * (s.length + 2)

/-- Leftmost search: try a match at each position, earliest first.
Returns the capture list of the first successful match. -/
def reSearchFrom (ci : Bool) (r : ReAst) (s : List Char) :
    Option (List (Nat × String)) :=
  match mrun ci (reFuel r s) r s [] (fun rest caps => some (caps, rest)) with
  | some (caps, _) => some caps
  | none =>
    match s with
    | [] => none
    | _ :: t => reSearchFrom ci r t

/-- Model of `re.search(pattern, text)` on an already-parsed pattern:
`none` when the pattern matches nowhere in the text. -/
def reSearch (ci : Bool) (r : ReAst) (t : String) : Option (List (Nat × String)) :=
  reSearchFrom ci r t.toList

/-- Recursive-descent parse of the supported fragment.  Arguments: fuel,
remaining characters, number of groups opened so far.  Returns the parsed
tail, the unconsumed characters (stopping at an unmatched `)`), and the
updated group count. -/
def parseSeq : Nat → List Char → Nat → Option (ReAst × List Char × Nat)
  | 0, _, _ => none
  | Nat.succ f, cs, gn =>
    match cs with
    | [] => some (.eps, [], gn)
    | ')' :: _ => some (.eps, cs, gn)
    | '+' :: _ => none
    | _ =>
      let atomRes : Option (ReAst × List Char × Nat) :=
        match cs with
        | '\\' :: 'd' :: rest => some (.anyDigit, rest, gn)
        | '\\' :: _ => none
        | '(' :: rest =>
          match parseSeq f rest (gn + 1) with
          | some (a, cs1, gn1) =>
            match cs1 with
            | ')' :: cs2 => some (.grp (gn + 1) a, cs2, gn1)
            | _ => none
          | none => none
        | c :: rest => some (.ch c, rest, gn)
        | [] => none
      match atomRes with
      | none => none
      | some (a, cs1, gn1) =>
        match cs1 with
        | '+' :: cs2 =>
          match parseSeq f cs2 gn1 with
          | some (b, cs3, gn3) => some (.seq (.rep1 a) b, cs3, gn3)
          | none => none
        | _ =>
          match parseSeq f cs1 gn1 with
          | some (b, cs3, gn3) => some (.seq a b, cs3, gn3)
          | none => none

/-- Model of `re.compile`: parse a whole pattern string; returns the AST
and the pattern's number of capture groups, or `none` for a pattern
outside the supported fragment (Python raises `re.error` on a bad
pattern; unsupported-but-valid constructs are out of this model). -/
def parseRe (s : String) : Option (ReAst × Nat) :=
  match parseSeq (s.length + 1) s.toList 0 with
  | some (a, [], gn) => some (a, gn)
  | _ => none

/-! ### The rule-matching engine: MatchConfig and MonitorConfig -/

/-- The four matching modes of a rule (`MatchRuleT` in the source). -/
inductive MatchRuleT where
  | exact
  | contains
  | regex
  | all
deriving DecidableEq, Repr

/-- A message sender (the fields of pyrogram `User` that the code reads).
`username` is absent when the account has no handle; `is_self` is truthy
exactly for the authenticated account. -/
structure PyUser where
  id : Int
  username : Option String := none
  is_self : Bool := false
deriving DecidableEq, Repr

/-- An incoming message (the fields of pyrogram `Message` that matter
here): the chat it arrived in, its sender (absent for channel/system
posts) and its text (absent for non-text media). -/
structure PyMessage where
  chat_id : Int
  from_user : Option PyUser := none
  text : Option String := none
deriving DecidableEq, Repr

/-- One declarative match rule (`MatchConfig` in the source), with the
source's field-by-field defaults. -/
structure MatchConfig where
  chat_id : Option PyId := none
  rule : MatchRuleT := .exact
  rule_value : Option String := none
  from_user_ids : Option (List PyId) := none
  default_send_text : Option String := none
  ai_reply : Bool := false
  ai_prompt : Option String := none
  send_text_search_regex : Option String := none
  delete_after : Option Int := none
  ignore_case : Bool := true
  forward_to_chat_id : Option PyId := none
  push_via_server_chan : Bool := false
  server_chan_send_key : Option String := none
deriving DecidableEq, Repr

/-- Normalisation of one allow-set entry, as in the set comprehension of
`MatchConfig.from_user_set`: the exact strings "me" and "self" alias to
the sentinel "me"; any other string is lowercased and stripped of "@";
ints pass through. -/
def normalize_from_user (u : PyId) : PyId :=
  match u with
  | .str v => if v = "me" || v = "self" then .str "me" else .str (stripAt (pyLower v))
  | .num n => .num n

/-- The normalised sender allow-set (`MatchConfig.from_user_set`),
computed from a present, non-empty `from_user_ids` list.  Membership is
the only use, so a list models the Python set. -/
def from_user_set (us : List PyId) : List PyId :=
  us.map normalize_from_user

/-- Sender matching (`MatchConfig.match_user`).  An absent or empty
allow-list always matches; an absent sender always matches; otherwise
the sender matches by numeric id, by lowercased non-empty handle, or via
the "me" sentinel when the sender is the authenticated account. -/
def MatchConfig.match_user (cfg : MatchConfig) (m : PyMessage) : Bool :=
  match cfg.from_user_ids with
  | none => true
  | some [] => true
  | some us =>
    match m.from_user with
    | none => true
    | some u =>
      decide (PyId.num u.id ∈ from_user_set us)
      || (match u.username with
          | none => false
          | some h => h != "" && decide (PyId.str (pyLower h) ∈ from_user_set us))
      || (decide (PyId.str "me" ∈ from_user_set us) && u.is_self)

/-- Text matching (`MatchConfig.match_text`), with Python's evaluation
order and exceptions made explicit: calling `.lower()` on an absent
value raises AttributeError; `x in None`, `None in x` and passing None
to `re.search` raise TypeError; `None == None` is True. -/
def MatchConfig.match_text (cfg : MatchConfig) (text : Option String) :
    Except PyErr Bool :=
  match cfg.rule with
  | .all => .ok true
  | .exact =>
    if cfg.ignore_case then
      match cfg.rule_value with
      | none => .error .attributeError
      | some rv =>
        match text with
        | none => .error .attributeError
        | some t => .ok (pyLower rv == pyLower t)
    else .ok (pyEqOptStr cfg.rule_value text)
  | .contains =>
    if cfg.ignore_case then
      match cfg.rule_value with
      | none => .error .attributeError
      | some rv =>
        match text with
        | none => .error .attributeError
        | some t => .ok (substrB (pyLower rv) (pyLower t))
    else
      match text with
      | none => .error .typeError
      | some t =>
        match cfg.rule_value with
        | none => .error .typeError
        | some rv => .ok (substrB rv t)
  | .regex =>
    match cfg.rule_value with
    | none => .error .typeError
    | some rv =>
      match parseRe rv with
      | none => .error .reError
      | some (r, _) =>
        match text with
        | none => .error .typeError
        | some t => .ok (reSearch cfg.ignore_case r t).isSome

/-- Whole-rule evaluation (`MatchConfig.match`, renamed: `match` is a
Lean keyword): the sender predicate short-circuits the text predicate;
the chat identifier is never consulted. -/
def MatchConfig.match_message (cfg : MatchConfig) (m : PyMessage) :
    Except PyErr Bool :=
  if cfg.match_user m then cfg.match_text m.text else .ok false

/-- Outgoing-text derivation (`MatchConfig.get_send_text`).  A falsy
(absent or empty) extraction pattern yields the default text; a
non-matching pattern yields the default text; a matching pattern yields
group 1, except that a pattern without a group 1 raises (IndexError is
re-raised as ValueError, the spec's PatternCaptureError). -/
def MatchConfig.get_send_text (cfg : MatchConfig) (text : String) :
    Except PyErr (Option String) :=
  match cfg.send_text_search_regex with
  | none => .ok cfg.default_send_text
  | some pat =>
    if pat = "" then .ok cfg.default_send_text
    else
      match parseRe pat with
      | none => .error .reError
      | some (r, gn) =>
        match reSearch false r text with
        | none => .ok cfg.default_send_text
        | some caps =>
          if 1 ≤ gn then .ok (capsLookup caps 1)
          else .error .valueError

/-- The monitor configuration (`MonitorConfig`): an ordered rule list. -/
structure MonitorConfig where
  match_cfgs : List MatchConfig
deriving DecidableEq, Repr

/-- The watched chats (`MonitorConfig.chat_ids`): one entry per rule, in
rule order, duplicates retained. -/
def MonitorConfig.chat_ids (m : MonitorConfig) : List (Option PyId) :=
  m.match_cfgs.map (fun cfg => cfg.chat_id)

/-! ### JSON records and pydantic-style validation -/

/-- A JSON value, the input space of `model_validate` and the output
space of `model_dump(mode="json")`. -/
inductive JVal where
  | null
  | int (n : Int)
  | str (s : String)
  | bool (b : Bool)
  | arr (xs : List JVal)
  | obj (fields : List (String × JVal))
deriving Repr

/-- Field lookup in a JSON object (unknown keys are simply ignored by
pydantic's default config). -/
def jLookup : List (String × JVal) → String → Option JVal
  | [], _ => none
  | (k, v) :: rest, key => if k = key then some v else jLookup rest key

/-- Validation of an `int`-annotated field: only a JSON integer is
accepted (in particular a JSON bool or string is rejected). -/
def asInt : JVal → Option Int
  | .int n => some n
  | _ => none

/-- Validation of a `str`-annotated field: only a JSON string. -/
def asStr : JVal → Option String
  | .str s => some s
  | _ => none

/-- Validation of a `bool`-annotated field: only a JSON boolean. -/
def asBool : JVal → Option Bool
  | .bool b => some b
  | _ => none

/-- Validation of a `Union[int, str]`-annotated field. -/
def asPyId : JVal → Option PyId
  | .int n => some (.num n)
  | .str s => some (.str s)
  | _ => none

/-- A field with a non-None default: a missing key takes the default, a
present value must validate (None is rejected). -/
def optFieldD (fs : List (String × JVal)) (k : String)
    (conv : JVal → Option α) (d : α) : Option α :=
  match jLookup fs k with
  | none => some d
  | some v => conv v

/-- An `Optional[...] = None` field: missing or JSON null yields `none`,
anything else must validate. -/
def optNullable (fs : List (String × JVal)) (k : String)
    (conv : JVal → Option α) : Option (Option α) :=
  match jLookup fs k with
  | none => some none
  | some .null => some none
  | some v => (conv v).map some

/-- Elementwise validation of a JSON array (pydantic `List[...]`):
every element must validate. -/
def validList (conv : JVal → Option α) : List JVal → Option (List α)
  | [] => some []
  | x :: rest => do
    let a ← conv x
    let as ← validList conv rest
    pure (a :: as)

/-- Two-character decimal read, for ISO time components. -/
def twoDig (a b : Char) : Option Nat :=
  if a.isDigit && b.isDigit then some (10 * (a.toNat - 48) + (b.toNat - 48))
  else none

/-- Validation of a `datetime.time` field from an ISO string
("HH:MM" or "HH:MM:SS"), the JSON forms a saved v1 config carries. -/
def parseTime (s : String) : Option PyTime :=
  match s.toList with
  | [h1, h2, ':', m1, m2] => do
    let h ← twoDig h1 h2
    let m ← twoDig m1 m2
    if h < 24 ∧ m < 60 then pure ⟨h, m, 0⟩ else none
  | [h1, h2, ':', m1, m2, ':', s1, s2] => do
    let h ← twoDig h1 h2
    let m ← twoDig m1 m2
    let sec ← twoDig s1 s2
    if h < 24 ∧ m < 60 ∧ sec < 60 then pure ⟨h, m, sec⟩ else none
  | _ => none

/-! ### The Sign Configuration family -/

/-- One chat entry of the current sign configuration (`SignChat`). -/
structure SignChat where
  chat_id : Int
  sign_text : String
  as_dice : Bool := false
  delete_after : Option Int := none
  text_of_btn_to_click : Option String := none
  choose_option_by_image : Bool := false
  has_calculation_problem : Bool := false
deriving DecidableEq, Repr

/-- Derived property `SignChat.need_response`. -/
def SignChat.need_response (c : SignChat) : Bool :=
  (match c.text_of_btn_to_click with
   | none => false
   | some t => t != "")
  || c.choose_option_by_image || c.has_calculation_problem

/-- The prior version of the sign configuration (`SignConfigV1`,
version 1): a single chat inline. -/
structure SignConfigV1 where
  chat_id : Int
  sign_text : String
  sign_at : PyTime
  random_seconds : Int
deriving DecidableEq, Repr

/-- The current sign configuration (`SignConfigV2 = SignConfig`,
version 2, olds = [SignConfigV1]). -/
structure SignConfigV2 where
  chats : List SignChat
  sign_at : String
  random_seconds : Int := 0
  sign_interval : Int := 1
deriving DecidableEq, Repr

/-- `SignChat.model_validate` (the classmethod `valid` without the
exception wrapper: `none` stands for a caught ValidationError). -/
def SignChat.valid : JVal → Option SignChat
  | .obj fs => do
    let chat_id ← (jLookup fs "chat_id").bind asInt
    let sign_text ← (jLookup fs "sign_text").bind asStr
    let as_dice ← optFieldD fs "as_dice" asBool false
    let delete_after ← optNullable fs "delete_after" asInt
    let text_of_btn_to_click ← optNullable fs "text_of_btn_to_click" asStr
    let choose_option_by_image ← optFieldD fs "choose_option_by_image" asBool false
    let has_calculation_problem ← optFieldD fs "has_calculation_problem" asBool false
    pure { chat_id, sign_text, as_dice, delete_after, text_of_btn_to_click,
           choose_option_by_image, has_calculation_problem }
  | _ => none

/-- `SignConfigV1.valid`: all four fields are required. -/
def SignConfigV1.valid : JVal → Option SignConfigV1
  | .obj fs => do
    let chat_id ← (jLookup fs "chat_id").bind asInt
    let sign_text ← (jLookup fs "sign_text").bind asStr
    let sign_at ← (jLookup fs "sign_at").bind (fun v =>
      match v with
      | .str s => parseTime s
      | _ => none)
    let random_seconds ← (jLookup fs "random_seconds").bind asInt
    pure { chat_id, sign_text, sign_at, random_seconds }
  | _ => none

/-- `SignConfigV2.valid`: `chats` (a list of valid SignChat records) and
`sign_at` (a string) are required; `random_seconds` defaults to 0 and
`sign_interval` to 1. -/
def SignConfigV2.valid : JVal → Option SignConfigV2
  | .obj fs => do
    let chats ← (jLookup fs "chats").bind (fun v =>
      match v with
      | .arr xs => validList SignChat.valid xs
      | _ => none)
    let sign_at ← (jLookup fs "sign_at").bind asStr
    let random_seconds ← optFieldD fs "random_seconds" asInt 0
    let sign_interval ← optFieldD fs "sign_interval" asInt 1
    pure { chats, sign_at, random_seconds, sign_interval }
  | _ => none

/-- Pydantic v2 validation of a value supplied to a `str`-annotated
field at construction time.  Per the pydantic v2 conversion table a
`str` field accepts `str` input but rejects `datetime.time` (there is no
time-to-str coercion), raising ValidationError. -/
inductive StrFieldInput where
  | ofStr (s : String)
  | ofTime (t : PyTime)

/-- See `StrFieldInput`. -/
def validateStrField : StrFieldInput → Except PyErr String
  | .ofStr s => .ok s
  | .ofTime _ => .error .validationError

/-- The v1-to-v2 upgrade (`SignConfigV1.to_current`).  The source builds
`SignConfig(chats=[SignChat(chat_id=..., sign_text=..., delete_after=None)],
sign_at=obj.sign_at, random_seconds=obj.random_seconds)`; constructing a
pydantic model validates every keyword, and `obj.sign_at` is a
`datetime.time` offered to the `str`-annotated `sign_at` field. -/
def SignConfigV1.to_current (obj : SignConfigV1) : Except PyErr SignConfigV2 := do
  let sign_at ← validateStrField (.ofTime obj.sign_at)
  pure { chats := [{ chat_id := obj.chat_id, sign_text := obj.sign_text,
                     delete_after := none }],
         sign_at := sign_at,
         random_seconds := obj.random_seconds }

/-- `BaseJSONConfig.load` instantiated at the sign family: try the
current shape first, then each registered old shape in order, upgrading
on a hit; when nothing validates the Python function falls off its end
and returns None (modelled as `.ok none`). -/
def SignConfigV2.load (d : JVal) : Except PyErr (Option (SignConfigV2 × Bool)) :=
  match SignConfigV2.valid d with
  | some inst => .ok (some (inst, false))
  | none =>
    match SignConfigV1.valid d with
    | some old => (SignConfigV1.to_current old).map (fun cur => some (cur, true))
    | none => .ok none

/-- JSON form of an `Optional[int]` field. -/
def jOfOptInt : Option Int → JVal
  | none => .null
  | some n => .int n

/-- JSON form of an `Optional[str]` field. -/
def jOfOptStr : Option String → JVal
  | none => .null
  | some s => .str s

/-- `SignChat.to_jsonable` (`model_dump(mode="json")`). -/
def SignChat.to_jsonable (c : SignChat) : JVal :=
  .obj [("chat_id", .int c.chat_id),
        ("sign_text", .str c.sign_text),
        ("as_dice", .bool c.as_dice),
        ("delete_after", jOfOptInt c.delete_after),
        ("text_of_btn_to_click", jOfOptStr c.text_of_btn_to_click),
        ("choose_option_by_image", .bool c.choose_option_by_image),
        ("has_calculation_problem", .bool c.has_calculation_problem)]

/-- `SignConfigV2.to_jsonable` (`model_dump(mode="json")`). -/
def SignConfigV2.to_jsonable (c : SignConfigV2) : JVal :=
  .obj [("chats", .arr (c.chats.map SignChat.to_jsonable)),
        ("sign_at", .str c.sign_at),
        ("random_seconds", .int c.random_seconds),
        ("sign_interval", .int c.sign_interval)]

/-- `MatchConfig.valid` (`model_validate`): every field has a default,
so every field is optional in the record; note there is no validator
tying `rule_value` to the mode.  The `chat_id` annotation is
`Union[int, str] = None`, not Optional, so an explicit null is rejected
while a missing key falls back to the default None. -/
def MatchConfig.valid : JVal → Option MatchConfig
  | .obj fs => do
    let chat_id ← match jLookup fs "chat_id" with
      | none => some none
      | some v => (asPyId v).map some
    let rule ← optFieldD fs "rule" (fun v =>
      match v with
      | .str "exact" => some MatchRuleT.exact
      | .str "contains" => some MatchRuleT.contains
      | .str "regex" => some MatchRuleT.regex
      | .str "all" => some MatchRuleT.all
      | _ => none) .exact
    let rule_value ← optNullable fs "rule_value" asStr
    let from_user_ids ← optNullable fs "from_user_ids" (fun v =>
      match v with
      | .arr xs => validList asPyId xs
      | _ => none)
    let default_send_text ← optNullable fs "default_send_text" asStr
    let ai_reply ← optFieldD fs "ai_reply" asBool false
    let ai_prompt ← optNullable fs "ai_prompt" asStr
    let send_text_search_regex ← optNullable fs "send_text_search_regex" asStr
    let delete_after ← optNullable fs "delete_after" asInt
    let ignore_case ← optFieldD fs "ignore_case" asBool true
    let forward_to_chat_id ← match jLookup fs "forward_to_chat_id" with
      | none => some none
      | some .null => some none
      | some v => (asPyId v).map some
    let push_via_server_chan ← optFieldD fs "push_via_server_chan" asBool false
    let server_chan_send_key ← optNullable fs "server_chan_send_key" asStr
    pure { chat_id, rule, rule_value, from_user_ids, default_send_text,
           ai_reply, ai_prompt, send_text_search_regex, delete_after,
           ignore_case, forward_to_chat_id, push_via_server_chan,
           server_chan_send_key }
  | _ => none

/-! ### Helper lemmas: serialization round-trips -/

/-- A dumped SignChat validates back to itself. -/
theorem signChat_valid_roundtrip (c : SignChat) :
    SignChat.valid c.to_jsonable = some c := by
  rcases c with ⟨cid, st, ad, da, tb, co, hc⟩
  rcases da with _ | n <;> rcases tb with _ | t <;>
    simp [SignChat.valid, SignChat.to_jsonable, jLookup, optFieldD, optNullable,
      asInt, asStr, asBool, jOfOptInt, jOfOptStr]

/-- A dumped SignChat list maps back to itself under validation. -/
theorem SignChat.valid_map_to_jsonable (cs : List SignChat) :
    validList SignChat.valid (cs.map SignChat.to_jsonable) = some cs := by
  induction cs with
  | nil => rfl
  | cons c rest ih =>
    simp [validList, signChat_valid_roundtrip, ih]

/-- A dumped current sign configuration validates back to itself. -/
theorem signConfigV2_valid_roundtrip (c : SignConfigV2) :
    SignConfigV2.valid c.to_jsonable = some c := by
  rcases c with ⟨chats, sa, rs, si⟩
  simp [SignConfigV2.valid, SignConfigV2.to_jsonable, jLookup, optFieldD,
    asInt, asStr, SignChat.valid_map_to_jsonable]

/-! ### Claim theorems -/

/-- A monitor rule targeting one numeric chat (all other fields default). -/
def c9rule (n : Int) : MatchConfig := { chat_id := some (.num n) }

/-- Claim C9: the derived chat-id list has one entry per rule, in rule
order, duplicates retained; rules targeting chats 5, 5, 7 yield
the list 5, 5, 7 and not a deduplicated set. -/
theorem C9_chat_ids_order_and_duplicates :
    (∀ (mc : MonitorConfig) (i : Nat),
      mc.chat_ids[i]? = (mc.match_cfgs[i]?).map (fun cfg => cfg.chat_id))
    ∧ (MonitorConfig.mk [c9rule 5, c9rule 5, c9rule 7]).chat_ids
        = [some (.num 5), some (.num 5), some (.num 7)] := by
  constructor
  · intro mc i
    simp [MonitorConfig.chat_ids]
  · rfl

/-- Claim C6: sender matching is permissive for an empty or absent
allow-set and for a senderless message; otherwise it accepts exactly by
numeric id, by lowercased (non-empty) handle, or by the "me" sentinel
together with is_self. -/
theorem C6_match_user_characterization :
    ∀ (cfg : MatchConfig) (m : PyMessage),
      ((cfg.from_user_ids = none ∨ cfg.from_user_ids = some []) →
        cfg.match_user m = true)
      ∧ (m.from_user = none → cfg.match_user m = true)
      ∧ (∀ us u, cfg.from_user_ids = some us → us ≠ [] → m.from_user = some u →
          (cfg.match_user m = true ↔
            (PyId.num u.id ∈ from_user_set us
             ∨ (∃ h, u.username = some h ∧ h ≠ "" ∧
                 PyId.str (pyLower h) ∈ from_user_set us)
             ∨ (PyId.str "me" ∈ from_user_set us ∧ u.is_self = true)))) := by
  intro cfg m
  refine ⟨?_, ?_, ?_⟩
  · rintro (hf | hf) <;> simp [MatchConfig.match_user, hf]
  · intro hu
    cases hf : cfg.from_user_ids with
    | none => simp [MatchConfig.match_user, hf]
    | some us => cases us <;> simp [MatchConfig.match_user, hf, hu]
  · intro us u hus hne hu
    rcases us with _ | ⟨x, t⟩
    · exact absurd rfl hne
    · rw [MatchConfig.match_user, hus, hu]
      cases hn : u.username with
      | none => simp [hn]
      | some h =>
        simp only [hn, Bool.or_eq_true, decide_eq_true_eq, Bool.and_eq_true,
          bne_iff_ne, ne_eq, Option.some.injEq, exists_eq_left']
        tauto

/-- Witness for C6: a rule allowing only "me" matches a message from the
authenticated account regardless of its numeric id. -/
theorem C6_match_user_witness :
    ({ from_user_ids := some [PyId.str "me"] } : MatchConfig).match_user
      { chat_id := 1, from_user := some { id := 9999, is_self := true } } = true := by
  have h := (C6_match_user_characterization
      { from_user_ids := some [PyId.str "me"] }
      { chat_id := 1, from_user := some { id := 9999, is_self := true } }).2.2
      [PyId.str "me"] { id := 9999, is_self := true } rfl (by decide) rfl
  exact h.mpr (Or.inr (Or.inr ⟨by decide, rfl⟩))

/-- Claim C10 counterexample: the claim asserts that the entry "Me"
can never make a sender match via the is_self sentinel; but an allow-set
containing only "Me" matches a sender with no username and a
non-matching numeric id, purely because "Me" lowercases to "me", the
sentinel value. -/
theorem C10_counterexample :
    ({ from_user_ids := some [PyId.str "Me"] } : MatchConfig).match_user
      { chat_id := 1, from_user := some { id := 42, username := none,
                                          is_self := true } } = true := by
  decide

/-- Claim C10 (amended): the alias check does run before lowercasing and
only the exact strings "me" and "self" are aliased, so "SELF" and "Self"
become the ordinary handle "self" and cannot match via the sentinel; but
any casing of "me" is lowercased to the string "me", which is
indistinguishable from the sentinel, and does match is_self senders. -/
theorem C10_normalization_and_sentinel :
    (∀ s : String, s ≠ "me" → s ≠ "self" →
      normalize_from_user (.str s) = .str (stripAt (pyLower s)))
    ∧ normalize_from_user (.str "me") = .str "me"
    ∧ normalize_from_user (.str "self") = .str "me"
    ∧ normalize_from_user (.str "SELF") = .str "self"
    ∧ normalize_from_user (.str "Self") = .str "self"
    ∧ normalize_from_user (.str "Me") = .str "me"
    ∧ (({ from_user_ids := some [PyId.str "SELF"] } : MatchConfig).match_user
        { chat_id := 1, from_user := some { id := 42, username := none,
                                            is_self := true } } = false)
    ∧ (({ from_user_ids := some [PyId.str "ME"] } : MatchConfig).match_user
        { chat_id := 1, from_user := some { id := 42, username := none,
                                            is_self := true } } = true) := by
  refine ⟨?_, by decide, by decide, by decide, by decide, by decide, by decide, by decide⟩
  intro s h1 h2
  simp [normalize_from_user, h1, h2]

/-- Witness for C10 (amended): an ordinary name is lowercased and
stripped, not aliased. -/
theorem C10_normalization_witness :
    normalize_from_user (.str "Bob") = .str (stripAt (pyLower "Bob")) :=
  C10_normalization_and_sentinel.1 "Bob" (by decide) (by decide)

/-- The record of claim C7: mode "exact" and no rule_value. -/
def c7record : JVal := .obj [("chat_id", .int 1), ("rule", .str "exact")]

/-- Claim C7 counterexample: a record with mode "exact" and no
rule_value validates successfully (the claim asserts validation fails),
yielding an instance with rule_value absent. -/
theorem C7_counterexample :
    MatchConfig.valid c7record
      = some { chat_id := some (.num 1), rule := .exact, rule_value := none } := by
  rfl

/-- Claim C7 (amended): MatchConfig declares no validator tying the mode
to rule_value, so for every non-all mode the record with that mode and
no rule_value is accepted with rule_value = None; the missing pattern
only surfaces later, when match_text raises AttributeError. -/
theorem C7_no_mode_pattern_invariant :
    (∀ (rs : String) (r : MatchRuleT),
      (rs = "exact" ∧ r = .exact) ∨ (rs = "contains" ∧ r = .contains) ∨
        (rs = "regex" ∧ r = .regex) →
      MatchConfig.valid (JVal.obj [("rule", JVal.str rs)])
        = some { rule := r, rule_value := none })
    ∧ (({ rule := MatchRuleT.exact, rule_value := none } : MatchConfig).match_text
        (some "x") = .error .attributeError) := by
  constructor
  · rintro rs r (⟨h1, h2⟩ | ⟨h1, h2⟩ | ⟨h1, h2⟩) <;> subst h1 <;> subst h2 <;> rfl
  · rfl

/-- Witness for C7 (amended), at mode "exact". -/
theorem C7_no_mode_pattern_invariant_witness :
    MatchConfig.valid (JVal.obj [("rule", JVal.str "exact")])
      = some { rule := MatchRuleT.exact, rule_value := none } :=
  C7_no_mode_pattern_invariant.1 "exact" .exact (Or.inl ⟨rfl, rfl⟩)

/-- Claim C2 (code bug): when neither the current nor the prior shape
validates, load silently returns None (here: ok none) instead of
raising; no SchemaMismatch error exists anywhere in the code, and the
None return contradicts the function's own Tuple return annotation. -/
theorem C2_load_returns_none :
    ∀ d : JVal, SignConfigV2.valid d = none → SignConfigV1.valid d = none →
      SignConfigV2.load d = .ok none := by
  intro d h2 h1
  simp [SignConfigV2.load, h2, h1]

/-- Witness for C2: the empty record validates against no version, and
load returns None for it. -/
theorem C2_load_returns_none_witness :
    SignConfigV2.valid (JVal.obj []) = none ∧
    SignConfigV1.valid (JVal.obj []) = none ∧
    SignConfigV2.load (JVal.obj []) = .ok none :=
  ⟨rfl, rfl, C2_load_returns_none (JVal.obj []) rfl rfl⟩

/-- Claim C3 (code bug): for every record that validates as v1 (and not
as v2), load does not produce an upgraded v2 document: the upgrade
passes the v1 datetime.time sign_at into the str-annotated v2 sign_at
field, and pydantic v2 rejects it, so load raises ValidationError. -/
theorem C3_migration_raises :
    ∀ (d : JVal) (v1 : SignConfigV1),
      SignConfigV2.valid d = none → SignConfigV1.valid d = some v1 →
      SignConfigV2.load d = .error .validationError := by
  intro d v1 h2 h1
  simp [SignConfigV2.load, h2, h1, SignConfigV1.to_current, validateStrField,
    Except.map]

/-- The failing input for C3: a well-formed v1 sign configuration. -/
def c3record : JVal :=
  .obj [("chat_id", .int 1), ("sign_text", .str "hi"),
        ("sign_at", .str "06:00:00"), ("random_seconds", .int 0)]

/-- Witness for C3: the concrete v1 record validates as v1, not as v2,
and loading it raises ValidationError instead of migrating. -/
theorem C3_migration_raises_witness :
    SignConfigV1.valid c3record
      = some { chat_id := 1, sign_text := "hi", sign_at := ⟨6, 0, 0⟩,
               random_seconds := 0 } ∧
    SignConfigV2.valid c3record = none ∧
    SignConfigV2.load c3record = .error .validationError :=
  ⟨rfl, rfl, C3_migration_raises c3record
    { chat_id := 1, sign_text := "hi", sign_at := ⟨6, 0, 0⟩,
      random_seconds := 0 } rfl rfl⟩

/-- Claim C8: a record that validates against the current shape loads
as-is with upgraded = false (current-version-first, no prior version is
consulted), and every document round-trips unchanged through
to_jsonable followed by load. -/
theorem C8_current_first_and_roundtrip :
    (∀ (d : JVal) (inst : SignConfigV2),
      SignConfigV2.valid d = some inst →
      SignConfigV2.load d = .ok (some (inst, false)))
    ∧ (∀ c : SignConfigV2,
      SignConfigV2.load c.to_jsonable = .ok (some (c, false))) := by
  constructor
  · intro d inst h
    simp [SignConfigV2.load, h]
  · intro c
    simp [SignConfigV2.load, signConfigV2_valid_roundtrip]

/-- A concrete saved v2 document for the C8 witness. -/
def c8record : JVal :=
  .obj [("chats", .arr [.obj [("chat_id", .int 3), ("sign_text", .str "x")]]),
        ("sign_at", .str "06:00")]

/-- Witness for C8: the concrete v2 record validates and loads with
upgraded = false. -/
theorem C8_current_first_witness :
    SignConfigV2.valid c8record
      = some { chats := [{ chat_id := 3, sign_text := "x" }], sign_at := "06:00" } ∧
    SignConfigV2.load c8record
      = .ok (some ({ chats := [{ chat_id := 3, sign_text := "x" }],
                     sign_at := "06:00" }, false)) :=
  ⟨rfl, C8_current_first_and_roundtrip.1 c8record
    { chats := [{ chat_id := 3, sign_text := "x" }], sign_at := "06:00" } rfl⟩

/-- The rule of claim C1: chat 100, exact "hi", case-insensitive. -/
def c1rule : MatchConfig :=
  { chat_id := some (.num 100), rule := .exact, rule_value := some "hi",
    ignore_case := true }

/-- The message of claim C1: it arrives in chat 101, not 100. -/
def c1message : PyMessage := { chat_id := 101, text := some "hi" }

/-- Claim C1 counterexample: the claim asserts that evaluation returns
no-match for this rule/message pair because of the chat mismatch; in
fact MatchConfig.match reports a match. -/
theorem C1_counterexample : c1rule.match_message c1message = .ok true := by
  rfl

/-- Claim C1 (amended): MatchConfig.match never consults the chat
identifier — it is the short-circuit conjunction of the sender and text
predicates alone, so its result is invariant under changing the
message's chat (any chat filtering lives in the caller, outside this
module). -/
theorem C1_match_message_ignores_chat :
    ∀ (cfg : MatchConfig) (m1 m2 : PyMessage),
      m1.from_user = m2.from_user → m1.text = m2.text →
      cfg.match_message m1 = cfg.match_message m2 := by
  intro cfg m1 m2 hu ht
  have huser : cfg.match_user m1 = cfg.match_user m2 := by
    unfold MatchConfig.match_user
    rw [hu]
  unfold MatchConfig.match_message
  rw [huser, ht]

/-- Witness for C1 (amended): moving the claim's message from chat 101
to the rule's own chat 100 does not change the evaluation result. -/
theorem C1_match_message_ignores_chat_witness :
    c1rule.match_message { chat_id := 100, text := some "hi" }
      = c1rule.match_message c1message :=
  C1_match_message_ignores_chat c1rule _ c1message rfl rfl

/-- The rule of claim C5's counterexample: exact "hi", case-insensitive
(the defaults of the model). -/
def c5rule : MatchConfig := { rule := .exact, rule_value := some "hi" }

/-- Claim C5 counterexample: the claim asserts that exact-mode matching
of a message without text evaluates to false; in fact the code calls
.lower() on the absent text and raises AttributeError. -/
theorem C5_counterexample : c5rule.match_text none = .error .attributeError := by
  rfl

/-- Claim C5 (amended): with absent text, mode all still matches; every
other mode fails to produce a match, but except for case-sensitive
exact mode (where Python's None comparison yields a plain bool) the
failure is an exception, not a false: case-insensitive exact and
contains raise AttributeError (from .lower() on None), case-sensitive
contains and regex raise TypeError (or re.error for an unparseable
pattern, which is compiled first). -/
theorem C5_match_text_absent_text :
    ∀ cfg : MatchConfig,
      (cfg.rule = .all → cfg.match_text none = .ok true)
      ∧ (cfg.rule = .exact → cfg.ignore_case = true →
          cfg.match_text none = .error .attributeError)
      ∧ (cfg.rule = .exact → cfg.ignore_case = false →
          ∀ rv, cfg.rule_value = some rv → cfg.match_text none = .ok false)
      ∧ (cfg.rule = .exact → cfg.ignore_case = false → cfg.rule_value = none →
          cfg.match_text none = .ok true)
      ∧ (cfg.rule = .contains → cfg.ignore_case = true →
          cfg.match_text none = .error .attributeError)
      ∧ (cfg.rule = .contains → cfg.ignore_case = false →
          cfg.match_text none = .error .typeError)
      ∧ (cfg.rule = .regex → cfg.rule_value = none →
          cfg.match_text none = .error .typeError)
      ∧ (cfg.rule = .regex → ∀ rv, cfg.rule_value = some rv → parseRe rv = none →
          cfg.match_text none = .error .reError)
      ∧ (cfg.rule = .regex → ∀ rv p, cfg.rule_value = some rv → parseRe rv = some p →
          cfg.match_text none = .error .typeError) := by
  intro cfg
  refine ⟨?_, ?_, ?_, ?_, ?_, ?_, ?_, ?_, ?_⟩
  · intro hr
    simp [MatchConfig.match_text, hr]
  · intro hr hic
    cases hrv : cfg.rule_value <;> simp [MatchConfig.match_text, hr, hic, hrv]
  · intro hr hic rv hrv
    simp [MatchConfig.match_text, hr, hic, hrv, pyEqOptStr]
  · intro hr hic hrv
    simp [MatchConfig.match_text, hr, hic, hrv, pyEqOptStr]
  · intro hr hic
    cases hrv : cfg.rule_value <;> simp [MatchConfig.match_text, hr, hic, hrv]
  · intro hr hic
    cases hrv : cfg.rule_value <;> simp [MatchConfig.match_text, hr, hic, hrv]
  · intro hr hrv
    simp [MatchConfig.match_text, hr, hrv]
  · intro hr rv hrv hp
    simp [MatchConfig.match_text, hr, hrv, hp]
  · intro hr rv p hrv hp
    simp [MatchConfig.match_text, hr, hrv, hp]

/-- Witness for C5 (amended): mode all matches without text; regex mode
with a valid pattern raises TypeError without text. -/
theorem C5_match_text_absent_text_witness :
    ({ rule := MatchRuleT.all } : MatchConfig).match_text none = .ok true ∧
    ({ rule := MatchRuleT.regex, rule_value := some "hi" } : MatchConfig).match_text
      none = .error .typeError :=
  ⟨(C5_match_text_absent_text { rule := MatchRuleT.all }).1 rfl,
   (C5_match_text_absent_text
      { rule := MatchRuleT.regex, rule_value := some "hi" }).2.2.2.2.2.2.2.2
      rfl "hi" (.seq (.ch 'h') (.seq (.ch 'i') .eps), 0) rfl rfl⟩

/-- Claim C4: with an extraction pattern set, a match with at least one
capture group yields the first group's capture, a match on a pattern
without capture groups raises (ValueError, the spec's
PatternCaptureError), and no match falls back to the default reply; the
concrete pattern on the concrete message yields "4821". -/
theorem C4_get_send_text :
    (∀ (cfg : MatchConfig) (text pat : String) (r : ReAst) (gn : Nat),
      cfg.send_text_search_regex = some pat → pat ≠ "" →
      parseRe pat = some (r, gn) →
      ((∀ caps, reSearch false r text = some caps → 1 ≤ gn →
          cfg.get_send_text text = .ok (capsLookup caps 1))
       ∧ (∀ caps, reSearch false r text = some caps → gn = 0 →
          cfg.get_send_text text = .error .valueError)
       ∧ (reSearch false r text = none →
          cfg.get_send_text text = .ok cfg.default_send_text)))
    ∧ (∀ cfg : MatchConfig, cfg.send_text_search_regex = some "code:(\\d+)" →
        cfg.get_send_text "your code:4821" = .ok (some "4821")) := by
  constructor
  · intro cfg text pat r gn hpat hne hparse
    refine ⟨?_, ?_, ?_⟩
    · intro caps hsearch hgn
      simp [MatchConfig.get_send_text, hpat, hne, hparse, hsearch, hgn]
    · intro caps hsearch hgn
      simp [MatchConfig.get_send_text, hpat, hne, hparse, hsearch, hgn]
    · intro hsearch
      simp [MatchConfig.get_send_text, hpat, hne, hparse, hsearch]
  · intro cfg hpat
    simp only [MatchConfig.get_send_text, hpat]
    rfl

/-- The rules of the C4 witness: one extracting rule (one group), one
group-less matching pattern, plus the parsed form of "code". -/
def c4cfg : MatchConfig := { send_text_search_regex := some "code:(\\d+)" }

/-- See c4cfg: a pattern that matches but captures nothing. -/
def c4cfg0 : MatchConfig :=
  { send_text_search_regex := some "code", default_send_text := some "dflt" }

/-- The AST the model parser produces for the pattern "code". -/
def c4ast : ReAst :=
  .seq (.ch 'c') (.seq (.ch 'o') (.seq (.ch 'd') (.seq (.ch 'e') .eps)))

/-- Witness for C4: the concrete extraction yields "4821"; a matching
pattern with no capture group raises ValueError; a non-matching pattern
falls back to the default reply. -/
theorem C4_get_send_text_witness :
    c4cfg.get_send_text "your code:4821" = .ok (some "4821") ∧
    c4cfg0.get_send_text "your code:4821" = .error .valueError ∧
    c4cfg0.get_send_text "zzz" = .ok (some "dflt") := by
  refine ⟨C4_get_send_text.2 c4cfg rfl, ?_, ?_⟩
  · exact (C4_get_send_text.1 c4cfg0 "your code:4821" "code" c4ast 0 rfl
      (by decide) rfl).2.1 [] rfl rfl
  · exact (C4_get_send_text.1 c4cfg0 "zzz" "code" c4ast 0 rfl
      (by decide) rfl).2.2 rfl
